import Mathlib

/- A shallow embedding of the signer abstraction layer of the nucypher
repository: nucypher/blockchain/eth/signers.py together with the EIP-55
checksum address validation decorator in
nucypher/blockchain/eth/decorators.py.

Python dictionaries are modelled as association lists, Python exceptions as
an explicit error type threaded through Except, and external collaborators
(the eth_account decryption primitive, the clef IPC transport, the trezor
device library, the keccak digest and the web3 formatting helpers) appear
as function parameters. Work that the claims never reach (RLP encoding
itself, the elliptic curve math) stays outside the model boundary: each
signing operation returns the exact data structure that the source hands to
the external primitive at that boundary. -/

/-- Model of the Python values that flow through the signer layer. The
modelled domain covers the value shapes the claims exercise; all of them
are hashable, so Python set membership tests on them cannot fail. -/
inductive PyVal : Type
  | none
  | str (s : String)
  | int (n : Int)
  | bytes (bs : List Nat)
deriving DecidableEq

/-- Python truthiness for the modelled values. -/
def PyVal.truthy : PyVal → Bool
  | .none => false
  | .str s => !(s == "")
  | .int n => !(n == 0)
  | .bytes bs => !bs.isEmpty

/-- The Python class name of a value, as interpolated into error messages. -/
def PyVal.typeName : PyVal → String
  | .none => "NoneType"
  | .str _ => "str"
  | .int _ => "int"
  | .bytes _ => "bytes"

/-- The Python exceptions raised by the signer layer. Constructors carry the
message or identifier interpolated by the source. The class hierarchy of the
source is recorded by the taxonomy predicates below. -/
inductive Exc : Type
  | typeError (msg : String)
  | valueError (msg : String)
  | keyError (msg : String)
  | attributeError (msg : String)
  | notImplementedError
  | fileNotFoundError (msg : String)
  | connectionRefusedError (msg : String)
  | runtimeError (msg : String)
  | invalidChecksumAddress (msg : String)
  | invalidSignerURI (msg : String)
  | invalidKeyfile (msg : String)
  | unknownAccount (account : String)
  | accountLocked (account : String)
  | noDeviceDetected (msg : String)
deriving DecidableEq

/-- True for the exception classes that subclass Signer.SignerError in the
source: InvalidSignerURI, InvalidKeyfile, UnknownAccount and AccountLocked.
TrezorSigner.NoDeviceDetected subclasses RuntimeError only, and the clef
connection failures are re-raised builtin exception types, so none of those
are SignerError subtypes. -/
def Exc.isSignerError : Exc → Bool
  | .invalidSignerURI _ => true
  | .invalidKeyfile _ => true
  | .unknownAccount _ => true
  | .accountLocked _ => true
  | _ => false

/-- True for the builtin OSError subclasses, i.e. the raw I/O and transport
exception types: FileNotFoundError and ConnectionRefusedError. -/
def Exc.isRawIOError : Exc → Bool
  | .fileNotFoundError _ => true
  | .connectionRefusedError _ => true
  | _ => false

/-- Decidable equality for Except results, used by concrete witnesses. -/
instance {e a : Type} [DecidableEq e] [DecidableEq a] : DecidableEq (Except e a) := fun x y =>
  match x, y with
  | Except.ok u, Except.ok v =>
    if h : u = v then Decidable.isTrue (by rw [h]) else Decidable.isFalse (by simp [h])
  | Except.error u, Except.error v =>
    if h : u = v then Decidable.isTrue (by rw [h]) else Decidable.isFalse (by simp [h])
  | Except.ok _, Except.error _ => Decidable.isFalse (by simp)
  | Except.error _, Except.ok _ => Decidable.isFalse (by simp)

/-- Association list lookup keyed by strings: the model of reading a Python
dict entry, returning the value of the first (and in a dict, only) binding. -/
def alookup {β : Type} : List (String × β) → String → Option β
  | [], _ => Option.none
  | kv :: rest, k => if kv.1 = k then Option.some kv.2 else alookup rest k

/-- Model of Python dict.pop: remove the first binding of the key, returning
the removed value and the remaining list. -/
def popFirst {β : Type} : List (String × β) → String → Option β × List (String × β)
  | [], _ => (Option.none, [])
  | kv :: rest, k =>
    if kv.1 = k then (Option.some kv.2, rest)
    else
      let r := popFirst rest k
      (r.1, kv :: r.2)

/-- A Python dict of transaction fields. -/
abbrev Dict := List (String × PyVal)

/-- Model of cytoolz dissoc: the dict without the given key. -/
def dissoc (d : Dict) (k : String) : Dict :=
  d.filter (fun kv => decide (kv.1 ≠ k))

/-- Model of Python dict assignment d[k] = v: overwrite the binding in place
when the key exists, otherwise append a new binding. -/
def dinsert (d : Dict) (k : String) (v : PyVal) : Dict :=
  if (alookup d k).isSome then
    d.map (fun kv => if kv.1 = k then (k, v) else kv)
  else d ++ [(k, v)]

/-- Model of Python dict.get with a default. -/
def dgetD (d : Dict) (k : String) (v0 : PyVal) : PyVal :=
  (alookup d k).getD v0

/-- Model of eth_utils apply_key_map: rename the keys occurring in the map,
keeping every other key unchanged. -/
def apply_key_map (km : List (String × String)) (d : Dict) : Dict :=
  d.map (fun kv => ((alookup km kv.1).getD kv.1, kv.2))

/-- Model of eth_utils apply_formatters_to_dict: apply the formatter bound
to a key to that value, keeping unformatted entries unchanged. -/
def apply_formatters_to_dict (formatters : List (String × (PyVal → PyVal))) (d : Dict) : Dict :=
  d.map (fun kv =>
    match alookup formatters kv.1 with
    | Option.some f => (kv.1, f kv.2)
    | Option.none => kv)

/-- Hex digit recognizer over the address alphabet. -/
def isHexChar (c : Char) : Bool :=
  (decide ('0' ≤ c) && decide (c ≤ '9'))
  || (decide ('a' ≤ c) && decide (c ≤ 'f'))
  || (decide ('A' ≤ c) && decide (c ≤ 'F'))

/-- Numeric value of a hex digit. -/
def hexNibble (c : Char) : Nat :=
  if decide ('0' ≤ c) && decide (c ≤ '9') then c.toNat - 48
  else if decide ('a' ≤ c) && decide (c ≤ 'f') then c.toNat - 87
  else if decide ('A' ≤ c) && decide (c ≤ 'F') then c.toNat - 55
  else 0

/-- The 40 lowercased hex characters of an address string after the 0x tag,
matching the normalization step of eth_utils to_checksum_address. -/
def addrBody (s : String) : List Char :=
  (s.data.drop 2).map Char.toLower

/-- Model of eth_utils is_hex_address: a text value of length 42, carrying
the 0x tag, whose remaining characters are hex digits. -/
def is_hex_address (s : String) : Bool :=
  (s.data.take 2 == ['0', 'x']) && (s.data.length == 42) && (s.data.drop 2).all isHexChar

/-- Model of eth_utils to_checksum_address, parametrized by the keccak
digest: keccak body i gives the i-th hex nibble of the digest of the
lowercased 40 character address body. A character is uppercased exactly when
its digest nibble is at least 8, as in the EIP-55 reference algorithm. -/
def to_checksum_address (keccak : List Char → Nat → Nat) (s : String) : String :=
  let body := addrBody s
  String.mk ('0' :: 'x' ::
    List.zipWith (fun c i => if keccak body i < 8 then c else c.toUpper)
      body (List.range body.length))

/-- Model of eth_utils is_checksum_address: a well-shaped hex address that
equals its own checksummed form. A value that is not text is never a
checksum address; the decorator model handles that case at its call site. -/
def is_checksum_address (keccak : List Char → Nat → Nat) (s : String) : Bool :=
  is_hex_address s && (s == to_checksum_address keccak s)

/-- Hex pairs to bytes, most significant nibble first. -/
def hexPairsToBytes : List Char → List Nat
  | c1 :: c2 :: rest => (16 * hexNibble c1 + hexNibble c2) :: hexPairsToBytes rest
  | _ => []

/-- Model of eth_utils to_canonical_address: the 20 raw bytes of the
normalized address. -/
def to_canonical_address (s : String) : List Nat :=
  hexPairsToBytes (addrBody s)

/-- Model of Web3.toHex over bytes: the 0x tagged lowercase hex rendering. -/
def bytesToHexStr (bs : List Nat) : String :=
  String.mk ('0' :: 'x' ::
    bs.foldr (fun b acc => Nat.digitChar (b / 16 % 16) :: Nat.digitChar (b % 16) :: acc) [])

/-- Model of the hex-to-bytes conversion Web3.toBytes over HexBytes that the
source applies to the data field of a transaction: strings are parsed as
hex, bytes pass through. -/
def pyToBytes : PyVal → PyVal
  | .str s =>
      .bytes (hexPairsToBytes ((if s.data.take 2 == ['0', 'x'] then s.data.drop 2 else s.data).map Char.toLower))
  | .bytes bs => .bytes bs
  | v => v

/-- Python f-string rendering of a value, used where the source interpolates
a value into an error message. The bytes case is abbreviated to its hex
form; no claim reaches a message interpolating a bytes value. -/
def PyVal.fstr : PyVal → String
  | PyVal.none => "None"
  | PyVal.str s => s
  | PyVal.int n => toString n
  | PyVal.bytes bs => bytesToHexStr bs

/-- One parameter binding of a decorated call, as the decorator sees it via
inspect.getcallargs: its declared name, the bound value, and whether the
declared default of the parameter is None (the condition the source uses to
treat the parameter as optional). -/
structure Param where
  name : String
  value : PyVal
  defaultIsNone : Bool
deriving DecidableEq

/-- The parameter names the decorator inspects: names ending in the
_address suffix, plus the account and address aliases. -/
def isAddressParam (n : String) : Bool :=
  ((n.data.reverse.take 8).reverse == "_address".data) || (n == "account") || (n == "address")

/-- One iteration of the validate_checksum_address loop body over the
process-wide verified address cache: cache hit skip, optional None skip,
EIP-55 check with cache insert on success, then the TypeError for
non-string values and the InvalidChecksumAddress failure for strings.
Membership of a non-string value in the string cache is False, matching the
Python set membership test on the modelled (hashable) value domain. -/
def checkParam (keccak : List Char → Nat → Nat) (V : List String) (p : Param) :
    List String × Option Exc :=
  if (match p.value with | PyVal.str s => V.contains s | _ => false) then (V, Option.none)
  else if p.defaultIsNone = true ∧ p.value = PyVal.none then (V, Option.none)
  else
    match p.value with
    | PyVal.str s =>
      if is_checksum_address keccak s then (s :: V, Option.none)
      else (V, Option.some (Exc.invalidChecksumAddress
        ("\"" ++ s ++ "\" is not a valid EIP-55 checksum address.")))
    | v => (V, Option.some (Exc.typeError
        (v.typeName ++ " is an invalid type for parameter \"" ++ p.name ++ "\".")))

/-- The decorator loop over the address parameters of one call: stop at the
first failing parameter, raising its error. -/
def runParams (keccak : List Char → Nat → Nat) (V : List String) :
    List Param → List String × Option Exc
  | [] => (V, Option.none)
  | p :: ps =>
    match checkParam keccak V p with
    | (V2, Option.none) => runParams keccak V2 ps
    | (V2, Option.some e) => (V2, Option.some e)

/-- The parameters of a call the decorator selects for inspection. -/
def addressParams (ps : List Param) : List Param :=
  ps.filter (fun p => isAddressParam p.name)

/-- The validate_checksum_address decorator: run the address checks over the
call parameters against the verified cache; only when every address
parameter passes does the wrapped function run. -/
def validate_checksum_address {α : Type} (keccak : List Char → Nat → Nat)
    (V : List String) (ps : List Param) (func : Unit → α) :
    List String × Except Exc α :=
  match runParams keccak V (addressParams ps) with
  | (V2, Option.none) => (V2, Except.ok (func ()))
  | (V2, Option.some e) => (V2, Except.error e)

/-- Evolution of the process-wide verified address cache: the second state
arises from the first by zero or more decorated calls. -/
inductive ValEvolves (keccak : List Char → Nat → Nat) : List String → List String → Prop
  | refl (V : List String) : ValEvolves keccak V V
  | step (V V2 : List String) (ps : List Param) :
      ValEvolves keccak V V2 → ValEvolves keccak V (runParams keccak V2 ps).1

namespace KeystoreSigner

/-- One parsed keystore record: the opaque encrypted payload of a keyfile.
No plaintext key material appears here. -/
structure KeyMetadata where
  payload : String
deriving DecidableEq

/-- The unlocked signing capability eth_account returns from decryption. -/
structure LocalAccount where
  keyId : Nat
deriving DecidableEq

/-- The mutable state of one KeystoreSigner: the keys dict populated at
construction and the signers dict of currently unlocked accounts. -/
structure KeystoreState where
  keys : List (String × KeyMetadata)
  signers : List (String × LocalAccount)
deriving DecidableEq

/-- Model of KeystoreSigner.__get_signer: look up the unlocked signer; on a
miss raise UnknownAccount for a non-member address and AccountLocked for a
known but locked one. -/
def get_signer (st : KeystoreState) (account : String) : Except Exc LocalAccount :=
  match alookup st.signers account with
  | Option.some sk => Except.ok sk
  | Option.none =>
    if (alookup st.keys account).isSome then Except.error (Exc.accountLocked account)
    else Except.error (Exc.unknownAccount account)

/-- Model of KeystoreSigner.unlock_account, parametrized by the external
eth_account decryption primitive. The try block of the source covers only
the dict subscript on self.__keys; a missing key raises KeyError there, and
a dict subscript on a string key can raise nothing else, so the except
ValueError handler of the source (the return False branch) is unreachable.
The call Account.decrypt(key_metadata, password) sits in the else block of
that try, outside every handler, so an exception it raises (ValueError on a
wrong password) propagates to the caller. -/
def unlock_account (decrypt : KeyMetadata → String → Except Exc LocalAccount)
    (st : KeystoreState) (account : String) (password : String) :
    KeystoreState × Except Exc Bool :=
  if (alookup st.signers account).isSome then (st, Except.ok true)
  else
    match alookup st.keys account with
    | Option.none => (st, Except.error (Exc.unknownAccount account))
    | Option.some meta =>
      match decrypt meta password with
      | Except.error e => (st, Except.error e)
      | Except.ok sk =>
        ({ st with signers := (account, sk) :: st.signers }, Except.ok true)

/-- Model of KeystoreSigner.lock_account: pop the unlocked entry; on a miss
raise UnknownAccount only when the address is not a keystore member;
finally return whether the account is now absent from the signers dict. -/
def lock_account (st : KeystoreState) (account : String) :
    KeystoreState × Except Exc Bool :=
  let r := popFirst st.signers account
  match r.1 with
  | Option.some _ =>
    let st2 := { st with signers := r.2 }
    (st2, Except.ok (alookup st2.signers account).isNone)
  | Option.none =>
    if (alookup st.keys account).isSome then
      (st, Except.ok (alookup st.signers account).isNone)
    else (st, Except.error (Exc.unknownAccount account))

/-- Model of KeystoreSigner.sign_transaction up to the eth_account
boundary: resolve the sender through get_signer, drop the to key for a
falsy destination, and return the signing capability together with the
exact dict handed to LocalAccount.sign_transaction. A non-string sender is
rejected by the validate_checksum_address decorator guarding get_signer
before its body runs. -/
def sign_transaction (st : KeystoreState) (transaction_dict : Dict) :
    Except Exc (LocalAccount × Dict) :=
  match alookup transaction_dict "from" with
  | Option.none => Except.error (Exc.keyError "from")
  | Option.some (PyVal.str sender) =>
    match get_signer st sender with
    | Except.error e => Except.error e
    | Except.ok sk =>
      match alookup transaction_dict "to" with
      | Option.none => Except.error (Exc.keyError "to")
      | Option.some toVal =>
        Except.ok (sk, if toVal.truthy then transaction_dict else dissoc transaction_dict "to")
  | Option.some v =>
    Except.error (Exc.typeError (v.typeName ++ " is an invalid type for parameter \"account\"."))

/-- Model of KeystoreSigner.sign_message up to the eth_account boundary,
parametrized by the EIP-191 personal message signing primitive. -/
def sign_message (signFn : LocalAccount → List Nat → List Nat)
    (st : KeystoreState) (account : String) (message : List Nat) :
    Except Exc (List Nat) :=
  match get_signer st account with
  | Except.error e => Except.error e
  | Except.ok sk => Except.ok (signFn sk message)

/-- Keystore states reachable through the public API: the signers dict is a
genuine dict (no duplicate keys) and every unlocked account is a keystore
member, as unlock_account establishes. -/
def WellFormed (st : KeystoreState) : Prop :=
  (st.signers.map Prod.fst).Nodup ∧
  ∀ e ∈ st.signers, (alookup st.keys e.1).isSome = true

end KeystoreSigner

namespace ClefSigner

/-- Low level failure modes of the web3 IPC transport at call time. -/
inductive IpcFailure : Type
  | fileNotFound
  | connectionRefused
  | raised (e : Exc)
deriving DecidableEq

/-- Model of ClefSigner.__ipc_request, parametrized by the transport (one
blocking request over the IPC channel). A FileNotFoundError or
ConnectionRefusedError from the transport is re-raised as the same builtin
exception type, with a message naming the configured endpoint path; any
other exception propagates untouched. -/
def ipc_request {α : Type} (transport : String → α → Except IpcFailure PyVal)
    (ipc_path : String) (endpoint : String) (request_args : α) : Except Exc PyVal :=
  match transport endpoint request_args with
  | Except.ok r => Except.ok r
  | Except.error IpcFailure.fileNotFound =>
    Except.error (Exc.fileNotFoundError
      ("Clef IPC file not found. Is clef running and available at \"" ++ ipc_path ++ "\"?"))
  | Except.error IpcFailure.connectionRefused =>
    Except.error (Exc.connectionRefusedError
      ("Clef refused connection. Is clef running and available at \"" ++ ipc_path ++ "\"?"))
  | Except.error (IpcFailure.raised e) => Except.error e

/-- Model of the ClefSigner.accounts property up to the address
checksumming of the response: one account_list round trip. -/
def accounts (transport : String → Unit → Except IpcFailure PyVal) (ipc_path : String) :
    Except Exc PyVal :=
  ipc_request transport ipc_path "account_list" ()

/-- EIP-191 version 0 content type. -/
def SIGN_DATA_FOR_VALIDATOR : String := "data/validator"

/-- Clique content type, accepted but unsupported by the source. -/
def SIGN_DATA_FOR_CLIQUE : String := "application/clique"

/-- Personal sign content type, EIP-191 version E. -/
def SIGN_DATA_FOR_ECRECOVER : String := "text/plain"

/-- The default content type of sign_message. -/
def DEFAULT_CONTENT_TYPE : String := SIGN_DATA_FOR_ECRECOVER

/-- The valid content type set of sign_message. -/
def SIGN_DATA_CONTENT_TYPES : List String :=
  [SIGN_DATA_FOR_VALIDATOR, SIGN_DATA_FOR_CLIQUE, SIGN_DATA_FOR_ECRECOVER]

/-- Modelled from the spec: the NULL_ADDRESS constant imported from
nucypher.blockchain.eth.constants, a module not present under src. The spec
calls it the zero/null address: the 0x tagged address of forty zero
digits. -/
def NULL_ADDRESS : String := String.mk ('0' :: 'x' :: List.replicate 40 '0')

/-- The data argument shipped in an account_signData request: the plain hex
message, or the validator structure built for the intended validator
content type. -/
inductive ClefData : Type
  | plain (message : String)
  | validator (address : String) (message : String)
deriving DecidableEq

/-- Model of ClefSigner.sign_message, parametrized by the transport. A
falsy content type argument (absent or empty) selects the default; a
provided content type outside the valid set raises ValueError; the
intended validator type demands a non-null validator address; the clique
type reaches the bare NotImplementedError before any IPC request. -/
def sign_message (transport : String → (String × String × ClefData) → Except IpcFailure PyVal)
    (ipc_path : String) (account : String) (message : List Nat)
    (content_type : Option String) (validator_address : Option String) :
    Except Exc PyVal :=
  let msg := bytesToHexStr message
  let ctRes : Except Exc String :=
    match content_type with
    | Option.none => Except.ok DEFAULT_CONTENT_TYPE
    | Option.some c =>
      if c = "" then Except.ok DEFAULT_CONTENT_TYPE
      else if c ∈ SIGN_DATA_CONTENT_TYPES then Except.ok c
      else Except.error (Exc.valueError
        (c ++ " is not a valid content type. Valid types are (data/validator, application/clique, text/plain)"))
  match ctRes with
  | Except.error e => Except.error e
  | Except.ok c =>
    if c = SIGN_DATA_FOR_VALIDATOR then
      match validator_address with
      | Option.none =>
        Except.error (Exc.valueError "When using the intended validator type, a validator address is required.")
      | Option.some va =>
        if va = "" ∨ va = NULL_ADDRESS then
          Except.error (Exc.valueError "When using the intended validator type, a validator address is required.")
        else
          ipc_request transport ipc_path "account_signData" (c, account, ClefData.validator va msg)
    else if c = SIGN_DATA_FOR_ECRECOVER then
      ipc_request transport ipc_path "account_signData" (c, account, ClefData.plain msg)
    else Except.error Exc.notImplementedError

/-- Model of ClefSigner.sign_transaction up to the IPC boundary,
parametrized by the web3 hex formatter and the checksum formatter: the
contract creation workaround turns an empty bytes destination into None,
a truthy destination additionally gets the checksum formatter, and the
result is the exact formatted dict shipped in the account_signTransaction
request. -/
def sign_transaction (toHex : PyVal → PyVal) (toChecksum : PyVal → PyVal)
    (transaction_dict : Dict) : Except Exc Dict :=
  match alookup transaction_dict "to" with
  | Option.none => Except.error (Exc.keyError "to")
  | Option.some toVal =>
    let base : List (String × (PyVal → PyVal)) :=
      [("nonce", toHex), ("gasPrice", toHex), ("gas", toHex),
       ("value", toHex), ("chainId", toHex), ("from", toChecksum)]
    if toVal = PyVal.bytes [] then
      Except.ok (apply_formatters_to_dict base (dinsert transaction_dict "to" PyVal.none))
    else if toVal.truthy then
      Except.ok (apply_formatters_to_dict (base ++ [("to", toChecksum)]) transaction_dict)
    else
      Except.ok (apply_formatters_to_dict base transaction_dict)

end ClefSigner

namespace TrezorSigner

/-- The coin type component of the derivation path. -/
def ETH_CHAIN_ROOT : Nat := 60

/-- The number of sequential derivation indices pre-loaded at construction. -/
def ADDRESS_CACHE_SIZE : Nat := 3

/-- The BIP-32 hardened offset trezorlib parse_path applies to tagged path
components. -/
def HARDENED : Nat := 2 ^ 31

/-- Model of parse_path over the derivation string the source builds for an
index: components 44, ETH_CHAIN_ROOT and 0 hardened, then 0 and the index. -/
def eth_address_path (index : Nat) : List Nat :=
  [44 + HARDENED, ETH_CHAIN_ROOT + HARDENED, 0 + HARDENED, 0, index]

/-- Outcome of one call into the external trezor device library. -/
inductive DeviceOutcome (α : Type) : Type
  | ok (a : α)
  | usbNoDevice
  | usbBusy
  | raised (e : Exc)

/-- Model of TrezorSigner.__handle_device_call. A USBErrorNoDevice becomes
NoDeviceDetected. On USBErrorBusy the handler evaluates trezor.DeviceError,
but neither TrezorSigner nor its base class Signer defines a DeviceError
attribute anywhere in the source, so that attribute access itself raises
AttributeError, which replaces the busy error. Every other exception
propagates untouched. -/
def handle_device_call {α : Type} : DeviceOutcome α → Except Exc α
  | DeviceOutcome.ok a => Except.ok a
  | DeviceOutcome.usbNoDevice =>
    Except.error (Exc.noDeviceDetected
      "The client cannot communicate to the TREZOR USB device. Was it disconnected?")
  | DeviceOutcome.usbBusy =>
    Except.error (Exc.attributeError "TrezorSigner object has no attribute DeviceError")
  | DeviceOutcome.raised e => Except.error e

/-- Model of TrezorSigner.get_address_path over the pre-loaded address
cache: supplying an index together with a truthy checksum address is the
usage error; an index alone derives a fresh path; otherwise the cache is
consulted and a miss raises the path-not-cached RuntimeError. No device
call occurs here. -/
def get_address_path (addresses : List (String × List Nat))
    (index : Option Nat) (checksum_address : Option String) : Except Exc (List Nat) :=
  match index with
  | Option.some i =>
    if (match checksum_address with
        | Option.some a => !(a == "")
        | Option.none => false) then
      Except.error (Exc.valueError "Expected index or checksum address; Got both.")
    else Except.ok (eth_address_path i)
  | Option.none =>
    match checksum_address with
    | Option.some a =>
      match alookup addresses a with
      | Option.some p => Except.ok p
      | Option.none =>
        Except.error (Exc.runtimeError (a ++ " was not loaded into the device address cache."))
    | Option.none =>
      Except.error (Exc.runtimeError "None was not loaded into the device address cache.")

/-- Model of TrezorSigner.get_address, parametrized by the device library
address derivation call; the Bool records whether a device call was
issued. A falsy hd_path argument (absent or the empty path) falls back to
the index; a non-empty hd_path is used as given and the index is never
consulted. -/
def get_address (deviceGetAddress : List Nat → Bool → DeviceOutcome String)
    (addresses : List (String × List Nat))
    (index : Option Nat) (hd_path : Option (List Nat)) (show_display : Bool) :
    Except Exc String × Bool :=
  let pathRes : Except Exc (List Nat) :=
    match hd_path with
    | Option.some p =>
      if p.isEmpty then
        match index with
        | Option.none => Except.error (Exc.valueError "No index or HD path supplied.")
        | Option.some i => get_address_path addresses (Option.some i) Option.none
      else Except.ok p
    | Option.none =>
      match index with
      | Option.none => Except.error (Exc.valueError "No index or HD path supplied.")
      | Option.some i => get_address_path addresses (Option.some i) Option.none
  match pathRes with
  | Except.error e => (Except.error e, false)
  | Except.ok p => (handle_device_call (deviceGetAddress p show_display), true)

/-- Model of TrezorSigner.sign_message, parametrized by the device library
message signing call; the result pairs the signature bytes with the signing
address, and the Bool records whether a device call was issued. -/
def sign_message (deviceSignMessage : List Nat → List Nat → DeviceOutcome (List Nat × String))
    (addresses : List (String × List Nat))
    (message : List Nat) (checksum_address : String) :
    Except Exc (List Nat × String) × Bool :=
  match get_address_path addresses Option.none (Option.some checksum_address) with
  | Except.error e => (Except.error e, false)
  | Except.ok p => (handle_device_call (deviceSignMessage p message), true)

/-- Model of TrezorSigner.sign_transaction up to the RLP boundary,
parametrized by the assert_valid_fields validator of eth_account and the
device signing call. On success it returns the exact field dict the source
builds for the final Transaction value handed to rlp.encode, together with
v, r and s; the Bool records whether a device call was issued. After the
device call the source deletes the chainId key and then writes
to_canonical_address(checksum_address) into the to key, where
checksum_address is the sender it popped from the from key. The string
keyed address cache cannot hold a non-string sender, so such a sender
raises the path-not-cached RuntimeError at the lookup. -/
def sign_transaction
    (assert_valid_fields : Dict → Option Exc)
    (deviceSignTx : List Nat → Dict → DeviceOutcome (Nat × Nat × Nat))
    (addresses : List (String × List Nat))
    (transaction_dict : Dict) :
    Except Exc (Dict × Nat × Nat × Nat) × Bool :=
  let popped := popFirst transaction_dict "from"
  match popped.1 with
  | Option.none => (Except.error (Exc.keyError "from"), false)
  | Option.some fromVal =>
    let tx1 := popped.2
    match assert_valid_fields tx1 with
    | Option.some e => (Except.error e, false)
    | Option.none =>
      let trezor_transaction :=
        apply_key_map [("gas", "gas_limit"), ("gasPrice", "gas_price"), ("chainId", "chain_id")] tx1
      let dataTruthy := (dgetD trezor_transaction "data" PyVal.none).truthy
      let trezor_transaction2 :=
        if dataTruthy then
          dinsert trezor_transaction "data" (pyToBytes (dgetD trezor_transaction "data" PyVal.none))
        else trezor_transaction
      let tx2 :=
        if dataTruthy then dinsert tx1 "data" (pyToBytes (dgetD tx1 "data" PyVal.none))
        else tx1
      match fromVal with
      | PyVal.str checksum_address =>
        match get_address_path addresses Option.none (Option.some checksum_address) with
        | Except.error e => (Except.error e, false)
        | Except.ok n =>
          match handle_device_call (deviceSignTx n trezor_transaction2) with
          | Except.error e => (Except.error e, true)
          | Except.ok vrs =>
            match alookup tx2 "chainId" with
            | Option.none => (Except.error (Exc.keyError "chainId"), true)
            | Option.some _ =>
              let tx3 := dinsert (dissoc tx2 "chainId") "to"
                (PyVal.bytes (to_canonical_address checksum_address))
              (Except.ok (tx3, vrs), true)
      | v =>
        (Except.error (Exc.runtimeError
          (PyVal.fstr v ++ " was not loaded into the device address cache.")), false)

end TrezorSigner

/-- Concrete keccak digest stub for witnesses: every nibble 0, so the
checksummed form of a lowercase address is itself. -/
def keccak0 : List Char → Nat → Nat := fun _ _ => 0

/-- A lowercase well-formed address literal used by concrete witnesses. -/
def addr0 : String := "0x0123456789abcdef0123456789abcdef01234567"

/-- A second, distinct lowercase address literal. -/
def addrB : String := "0x00000000000000000000000000000000000000aa"

/-- Keystore fixture: the opaque key record of the fixture account. -/
def meta0 : KeystoreSigner.KeyMetadata := ⟨"ciphertext"⟩

/-- Keystore state with the one known account still locked. -/
def stLocked : KeystoreSigner.KeystoreState := ⟨[(addr0, meta0)], []⟩

/-- Keystore state with the one known account unlocked. -/
def stUnlocked : KeystoreSigner.KeystoreState := ⟨[(addr0, meta0)], [(addr0, ⟨1⟩)]⟩

/-- Decryption stub: the fixture password decrypts; anything else raises
the ValueError eth_account raises on a MAC check failure. -/
def decrypt0 : KeystoreSigner.KeyMetadata → String → Except Exc KeystoreSigner.LocalAccount :=
  fun _ password =>
    if password = "correct horse battery staple" then Except.ok ⟨1⟩
    else Except.error (Exc.valueError "MAC mismatch")

/-- Trezor address cache fixture holding the fixture account at index 0. -/
def cache0 : List (String × List Nat) := [(addr0, TrezorSigner.eth_address_path 0)]

/-- Device stub returning a fixed signature triple. -/
def devSignTx0 : List Nat → Dict → TrezorSigner.DeviceOutcome (Nat × Nat × Nat) :=
  fun _ _ => TrezorSigner.DeviceOutcome.ok (37, 1, 1)

/-- Field validator stub accepting every dict. -/
def validOk : Dict → Option Exc := fun _ => Option.none

/-- Contract creation transaction fixture: empty destination. -/
def txCreate : Dict :=
  [("from", PyVal.str addr0), ("to", PyVal.bytes []), ("nonce", PyVal.int 0),
   ("gasPrice", PyVal.int 1), ("gas", PyVal.int 21000), ("value", PyVal.int 0),
   ("data", PyVal.str "0x6060"), ("chainId", PyVal.int 1)]

/-- Transfer transaction fixture: sender addr0, recipient addrB. -/
def txTransfer : Dict :=
  [("from", PyVal.str addr0), ("to", PyVal.str addrB), ("nonce", PyVal.int 0),
   ("gasPrice", PyVal.int 1), ("gas", PyVal.int 21000), ("value", PyVal.int 5),
   ("data", PyVal.bytes []), ("chainId", PyVal.int 1)]

/-- A successful association lookup exhibits a member binding. -/
theorem alookup_mem {β : Type} (l : List (String × β)) (k : String) (v : β)
    (h : alookup l k = Option.some v) : (k, v) ∈ l := by
  induction l with
  | nil => exact absurd h (by simp [alookup])
  | cons kv rest ih =>
    rw [alookup] at h
    by_cases hk : kv.1 = k
    · rw [if_pos hk] at h
      have hv : kv.2 = v := by injection h
      have hkv : (k, v) = kv := by
        obtain ⟨a, b⟩ := kv
        simp at hk hv
        rw [hk, hv]
      rw [hkv]
      exact List.mem_cons_self _ _
    · rw [if_neg hk] at h
      exact List.mem_cons_of_mem _ (ih h)

/-- A key absent from the key column is not found by alookup. -/
theorem alookup_eq_none_of_not_mem {β : Type} (l : List (String × β)) (k : String)
    (h : k ∉ l.map Prod.fst) : alookup l k = Option.none := by
  induction l with
  | nil => rfl
  | cons kv rest ih =>
    rw [alookup]
    have h1 : kv.1 ≠ k := by
      intro e
      exact h (by simp [← e])
    rw [if_neg h1]
    exact ih (fun hm => h (by simp [hm]))

/-- The value removed by popFirst is the alookup value. -/
theorem popFirst_fst {β : Type} (l : List (String × β)) (k : String) :
    (popFirst l k).1 = alookup l k := by
  induction l with
  | nil => rfl
  | cons kv rest ih =>
    by_cases hk : kv.1 = k
    · simp [popFirst, alookup, hk]
    · simp [popFirst, alookup, hk, ih]

/-- After popFirst over a duplicate-free key column the key is gone. -/
theorem alookup_popFirst_of_nodup {β : Type} (l : List (String × β)) (k : String)
    (h : (l.map Prod.fst).Nodup) : alookup (popFirst l k).2 k = Option.none := by
  induction l with
  | nil => rfl
  | cons kv rest ih =>
    rw [List.map_cons, List.nodup_cons] at h
    by_cases hk : kv.1 = k
    · simp only [popFirst, if_pos hk]
      exact alookup_eq_none_of_not_mem rest k (hk ▸ h.1)
    · simp only [popFirst, if_neg hk]
      rw [alookup, if_neg hk]
      exact ih h.2

/-- Boolean list membership agrees with membership. -/
theorem contains_iff_mem (V : List String) (s : String) : V.contains s = true ↔ s ∈ V := by
  induction V with
  | nil => simp
  | cons v rest ih => simp [List.contains] at ih ⊢

/-- A string passing is_checksum_address equals its own checksummed form. -/
theorem to_checksum_address_of_valid (keccak : List Char → Nat → Nat) (s : String)
    (h : is_checksum_address keccak s = true) : to_checksum_address keccak s = s := by
  unfold is_checksum_address at h
  have h2 : (s == to_checksum_address keccak s) = true := (Bool.and_eq_true _ _ |>.mp h).2
  exact (eq_of_beq h2).symm

/-- The decorator loop distributes over list append, stopping at the first
failure. -/
theorem runParams_append (keccak : List Char → Nat → Nat) (V : List String)
    (xs ys : List Param) :
    runParams keccak V (xs ++ ys)
      = (match runParams keccak V xs with
          | (V2, Option.none) => runParams keccak V2 ys
          | (V2, Option.some e) => (V2, Option.some e)) := by
  induction xs generalizing V with
  | nil => rfl
  | cons p ps ih =>
    rw [List.cons_append, runParams, runParams]
    cases h : checkParam keccak V p with
    | mk V2 oe =>
      cases oe with
      | none => exact ih V2
      | some e => rfl

/-- One decorator step never removes a cached address. -/
theorem checkParam_subset (keccak : List Char → Nat → Nat) (V : List String) (p : Param) :
    V ⊆ (checkParam keccak V p).1 := by
  unfold checkParam
  split
  · exact fun x hx => hx
  · split
    · exact fun x hx => hx
    · split
      · split
        · exact fun x hx => List.mem_cons_of_mem _ hx
        · exact fun x hx => hx
      · exact fun x hx => hx

/-- The decorator loop never removes a cached address. -/
theorem runParams_subset (keccak : List Char → Nat → Nat) (V : List String) (ps : List Param) :
    V ⊆ (runParams keccak V ps).1 := by
  induction ps generalizing V with
  | nil => exact fun x hx => hx
  | cons p ps ih =>
    rw [runParams]
    have hsub := checkParam_subset keccak V p
    cases h : checkParam keccak V p with
    | mk V2 oe =>
      rw [h] at hsub
      cases oe with
      | none => exact hsub.trans (ih V2)
      | some e => exact hsub

/-- One decorator step caches only strings passing is_checksum_address. -/
theorem checkParam_valid (keccak : List Char → Nat → Nat) (V : List String) (p : Param)
    (hV : ∀ s ∈ V, is_checksum_address keccak s = true) :
    ∀ s ∈ (checkParam keccak V p).1, is_checksum_address keccak s = true := by
  unfold checkParam
  split
  · exact hV
  · split
    · exact hV
    · split
      · next u heq =>
        split
        · next hvalid =>
          intro s hs
          rcases List.mem_cons.mp hs with h1 | h2
          · rw [h1]; exact hvalid
          · exact hV s h2
        · exact hV
      · exact hV

/-- The decorator loop caches only strings passing is_checksum_address. -/
theorem runParams_valid (keccak : List Char → Nat → Nat) (V : List String) (ps : List Param)
    (hV : ∀ s ∈ V, is_checksum_address keccak s = true) :
    ∀ s ∈ (runParams keccak V ps).1, is_checksum_address keccak s = true := by
  induction ps generalizing V with
  | nil => exact hV
  | cons p ps ih =>
    rw [runParams]
    have hstep := checkParam_valid keccak V p hV
    cases h : checkParam keccak V p with
    | mk V2 oe =>
      rw [h] at hstep
      cases oe with
      | none => exact ih V2 hstep
      | some e => exact hstep

/-- Cache evolution is monotone: no decorated call removes an address. -/
theorem valEvolves_subset (keccak : List Char → Nat → Nat) (V V2 : List String)
    (h : ValEvolves keccak V V2) : V ⊆ V2 := by
  induction h with
  | refl => exact fun x hx => hx
  | step Vb ps hab ih => exact fun x hx => runParams_subset keccak Vb ps (ih hx)

/-- Every address in a cache evolved from a valid one passes
is_checksum_address. -/
theorem valEvolves_valid (keccak : List Char → Nat → Nat) (V V2 : List String)
    (h : ValEvolves keccak V V2)
    (hV : ∀ s ∈ V, is_checksum_address keccak s = true) :
    ∀ s ∈ V2, is_checksum_address keccak s = true := by
  induction h with
  | refl => exact hV
  | step Vb ps hab ih => exact runParams_valid keccak Vb ps ih

/-- A non-string address value that is not the optional None skip fails the
decorator step with the TypeError naming the actual type and parameter. -/
theorem checkParam_nonstring (keccak : List Char → Nat → Nat) (V : List String) (p : Param)
    (hns : ∀ s, p.value ≠ PyVal.str s)
    (hskip : ¬(p.defaultIsNone = true ∧ p.value = PyVal.none)) :
    checkParam keccak V p
      = (V, Option.some (Exc.typeError
          (p.value.typeName ++ " is an invalid type for parameter \"" ++ p.name ++ "\"."))) := by
  obtain ⟨n, value, d⟩ := p
  cases value with
  | str s => exact absurd rfl (hns s)
  | none =>
    cases d with
    | false => simp [checkParam, PyVal.typeName]
    | true => exact absurd ⟨rfl, rfl⟩ hskip
  | int m => simp [checkParam, PyVal.typeName]
  | bytes bs => simp [checkParam, PyVal.typeName]

/-- A decorator step succeeding on a string value certifies the string: it
passes is_checksum_address and ends up cached. -/
theorem checkParam_str_ok (keccak : List Char → Nat → Nat) (V V2 : List String)
    (p : Param) (s : String)
    (hval : p.value = PyVal.str s)
    (hVvalid : ∀ u ∈ V, is_checksum_address keccak u = true)
    (hok : checkParam keccak V p = (V2, Option.none)) :
    is_checksum_address keccak s = true ∧ s ∈ V2 := by
  obtain ⟨n, value, d⟩ := p
  simp only at hval
  subst hval
  simp only [checkParam] at hok
  by_cases hc : V.contains s = true
  · rw [if_pos hc] at hok
    have hV2 : V2 = V := by injection hok with h1 h2; exact h1.symm
    have hmem : s ∈ V := (contains_iff_mem V s).mp hc
    exact ⟨hVvalid s hmem, hV2 ▸ hmem⟩
  · rw [if_neg hc] at hok
    rw [if_neg (by simp)] at hok
    by_cases hv : is_checksum_address keccak s = true
    · rw [if_pos hv] at hok
      have hV2 : V2 = s :: V := by injection hok with h1 h2; exact h1.symm
      exact ⟨hv, hV2 ▸ List.mem_cons_self _ _⟩
    · rw [if_neg hv] at hok
      exact absurd hok (by simp)

/-- Claim C1 (code bug): the spec says unlock_account with a wrong password
returns False without raising. In the source the try handler that would
return False guards only the dict lookup of the key record, which can raise
only KeyError; the Account.decrypt call sits in its else block, so the
ValueError decryption raises on a wrong password propagates to the caller.
The signer cache stays untouched, so a subsequent sign_message does fail
with AccountLocked, as the claim also states. -/
theorem c1_unlock_wrong_password_raises :
    KeystoreSigner.unlock_account decrypt0 stLocked addr0 "wrong"
      = (stLocked, Except.error (Exc.valueError "MAC mismatch"))
    ∧ ∀ (signFn : KeystoreSigner.LocalAccount → List Nat → List Nat),
        KeystoreSigner.sign_message signFn stLocked addr0 [1, 2, 3]
          = Except.error (Exc.accountLocked addr0) :=
  ⟨by decide, fun signFn => rfl⟩

/-- Claim C2 (code bug): on a contract creation transaction (empty
destination) the keystore backend signs with the recipient key absent and
the clef backend ships a null recipient, but the trezor backend writes the
canonical 20 byte SENDER address into the recipient field before
serialization — a non-null, non-absent placeholder value. -/
theorem c2_contract_creation_recipient :
    (KeystoreSigner.sign_transaction stUnlocked txCreate).map (fun r => alookup r.2 "to")
      = Except.ok Option.none
    ∧ (∀ (toHex toChecksum : PyVal → PyVal),
        (ClefSigner.sign_transaction toHex toChecksum txCreate).map (fun d => alookup d "to")
          = Except.ok (Option.some PyVal.none))
    ∧ (TrezorSigner.sign_transaction validOk devSignTx0 cache0 txCreate).1.map
        (fun r => alookup r.1 "to")
      = Except.ok (Option.some (PyVal.bytes (to_canonical_address addr0)))
    ∧ Option.some (PyVal.bytes (to_canonical_address addr0)) ≠ Option.some PyVal.none
    ∧ Option.some (PyVal.bytes (to_canonical_address addr0)) ≠ (Option.none : Option PyVal) :=
  ⟨rfl, fun toHex toChecksum => rfl, rfl, by decide, by decide⟩

/-- Claim C3 (code bug): the serialized trezor transaction indeed carries no
separate chain id field (the source deletes the chainId key after the
device call), but its to field holds the canonical encoding of the SENDER,
not of the input recipient: for a transfer from addr0 to addrB the final
field dict binds to to the canonical bytes of addr0, and the canonical
encodings of addr0 and addrB differ. -/
theorem c3_trezor_serializes_sender_as_recipient :
    (TrezorSigner.sign_transaction validOk devSignTx0 cache0 txTransfer).1.map
        (fun r => (alookup r.1 "to", alookup r.1 "chainId"))
      = Except.ok (Option.some (PyVal.bytes (to_canonical_address addr0)), Option.none)
    ∧ to_canonical_address addr0 ≠ to_canonical_address addrB :=
  ⟨rfl, by decide⟩

/-- Claim C4 (code bug): a USB no-device failure is translated to
NoDeviceDetected as the claim says, but a USB busy failure raises
AttributeError (the handler evaluates trezor.DeviceError and no DeviceError
class exists anywhere in the source), not a device-busy error; moreover
neither NoDeviceDetected (a RuntimeError subclass) nor the AttributeError
is a SignerError subtype, against the all-failures-are-SignerError clause. -/
theorem c4_device_error_taxonomy :
    TrezorSigner.handle_device_call (α := Unit) TrezorSigner.DeviceOutcome.usbBusy
      = Except.error (Exc.attributeError "TrezorSigner object has no attribute DeviceError")
    ∧ TrezorSigner.handle_device_call (α := Unit) TrezorSigner.DeviceOutcome.usbNoDevice
      = Except.error (Exc.noDeviceDetected
          "The client cannot communicate to the TREZOR USB device. Was it disconnected?")
    ∧ Exc.isSignerError (Exc.noDeviceDetected
        "The client cannot communicate to the TREZOR USB device. Was it disconnected?") = false
    ∧ Exc.isSignerError
        (Exc.attributeError "TrezorSigner object has no attribute DeviceError") = false :=
  ⟨rfl, rfl, rfl, rfl⟩

/-- Claim C5 counterexample: when the transport fails with FileNotFoundError
the clef request fails with a message naming the endpoint path, but the
error raised to the caller is the same raw I/O exception type (an OSError
subclass) and not a SignerError subtype — refuting the clause that the
failure is not surfaced to the caller as a raw I/O error. -/
theorem c5_counterexample_raw_io_error :
    ClefSigner.ipc_request
        (fun (_ : String) (_ : Unit) => Except.error ClefSigner.IpcFailure.fileNotFound)
        "/tmp/clef.ipc" "account_list" ()
      = Except.error (Exc.fileNotFoundError
          "Clef IPC file not found. Is clef running and available at \"/tmp/clef.ipc\"?")
    ∧ Exc.isRawIOError (Exc.fileNotFoundError
        "Clef IPC file not found. Is clef running and available at \"/tmp/clef.ipc\"?") = true
    ∧ Exc.isSignerError (Exc.fileNotFoundError
        "Clef IPC file not found. Is clef running and available at \"/tmp/clef.ipc\"?") = false :=
  ⟨rfl, rfl, rfl⟩

/-- Claim C5 amended: an endpoint-missing or connection-refused failure at
call time is re-raised with a message naming the configured endpoint path,
but as the same raw I/O exception type (FileNotFoundError respectively
ConnectionRefusedError), not translated to a SignerError subtype. -/
theorem c5_connection_failures_name_endpoint {α : Type} (ipc_path endpoint : String)
    (t1 t2 : String → α → Except ClefSigner.IpcFailure PyVal) (args : α)
    (h1 : t1 endpoint args = Except.error ClefSigner.IpcFailure.fileNotFound)
    (h2 : t2 endpoint args = Except.error ClefSigner.IpcFailure.connectionRefused) :
    ClefSigner.ipc_request t1 ipc_path endpoint args
      = Except.error (Exc.fileNotFoundError
          ("Clef IPC file not found. Is clef running and available at \"" ++ ipc_path ++ "\"?"))
    ∧ ClefSigner.ipc_request t2 ipc_path endpoint args
      = Except.error (Exc.connectionRefusedError
          ("Clef refused connection. Is clef running and available at \"" ++ ipc_path ++ "\"?"))
    ∧ Exc.isRawIOError (Exc.fileNotFoundError
        ("Clef IPC file not found. Is clef running and available at \"" ++ ipc_path ++ "\"?")) = true
    ∧ Exc.isRawIOError (Exc.connectionRefusedError
        ("Clef refused connection. Is clef running and available at \"" ++ ipc_path ++ "\"?")) = true := by
  refine ⟨?_, ?_, rfl, rfl⟩
  · unfold ClefSigner.ipc_request
    rw [h1]
  · unfold ClefSigner.ipc_request
    rw [h2]

/-- Witness for the amended claim C5 at a concrete endpoint and transport. -/
theorem c5_connection_failures_name_endpoint_witness :
    ClefSigner.ipc_request
        (fun (_ : String) (_ : Unit) => Except.error ClefSigner.IpcFailure.fileNotFound)
        "/x/clef.ipc" "account_list" ()
      = Except.error (Exc.fileNotFoundError
          ("Clef IPC file not found. Is clef running and available at \"" ++ "/x/clef.ipc" ++ "\"?")) :=
  (c5_connection_failures_name_endpoint "/x/clef.ipc" "account_list"
      (fun _ _ => Except.error ClefSigner.IpcFailure.fileNotFound)
      (fun _ _ => Except.error ClefSigner.IpcFailure.connectionRefused)
      () rfl rfl).1

/-- Claim C6 counterexample: get_address called with both an index and an
explicit non-empty HD path does not fail with a usage error — it ignores
the index, uses the given path and issues the device call. -/
theorem c6_counterexample_both_index_and_path :
    TrezorSigner.get_address (fun _ _ => TrezorSigner.DeviceOutcome.ok "0xd") []
        (Option.some 7) (Option.some (TrezorSigner.eth_address_path 2)) true
      = (Except.ok "0xd", true) :=
  rfl

/-- Claim C6 amended: the usage error for supplying both an index and an
address is raised by get_address_path (index together with a checksum
address), not by get_address with an hd_path; and resolving an address
absent from the pre-loaded cache fails with the path-not-cached error, with
no device call issued (sign_message on such an address fails the same way
for every device function, device-call flag false). -/
theorem c6_usage_and_cache_errors (addresses : List (String × List Nat))
    (i : Nat) (a : String) (ha : a ≠ "")
    (hmiss : alookup addresses a = Option.none) :
    TrezorSigner.get_address_path addresses (Option.some i) (Option.some a)
      = Except.error (Exc.valueError "Expected index or checksum address; Got both.")
    ∧ TrezorSigner.get_address_path addresses Option.none (Option.some a)
      = Except.error (Exc.runtimeError (a ++ " was not loaded into the device address cache."))
    ∧ ∀ (deviceSignMessage : List Nat → List Nat → TrezorSigner.DeviceOutcome (List Nat × String))
        (message : List Nat),
        TrezorSigner.sign_message deviceSignMessage addresses message a
          = (Except.error
              (Exc.runtimeError (a ++ " was not loaded into the device address cache.")), false) := by
  have hb : (a == "") = false := by
    cases h : (a == "") with
    | false => rfl
    | true => exact absurd (eq_of_beq h) ha
  have hpath : TrezorSigner.get_address_path addresses Option.none (Option.some a)
      = Except.error (Exc.runtimeError (a ++ " was not loaded into the device address cache.")) := by
    simp [TrezorSigner.get_address_path, hmiss]
  refine ⟨?_, hpath, ?_⟩
  · simp [TrezorSigner.get_address_path, hb]
  · intro deviceSignMessage message
    unfold TrezorSigner.sign_message
    rw [hpath]

/-- Witness for the amended claim C6 at a concrete index and address. -/
theorem c6_usage_and_cache_errors_witness :
    TrezorSigner.get_address_path [] (Option.some 0) (Option.some addrB)
      = Except.error (Exc.valueError "Expected index or checksum address; Got both.") :=
  (c6_usage_and_cache_errors [] 0 addrB (by decide) rfl).1

/-- Claim C7 (confirmed): when the first failing address parameter of a
decorated call holds a non-string value (non-strings can never be cache
hits, and the absent-optional skip is excluded), the call fails with the
TypeError naming the actual type and the parameter, and the wrapped
operation never runs: the result is the same for every wrapped function. -/
theorem c7_non_string_address_fails {α : Type}
    (keccak : List Char → Nat → Nat) (V V1 : List String)
    (ps before after : List Param) (p : Param)
    (haddr : addressParams ps = before ++ p :: after)
    (hbefore : runParams keccak V before = (V1, Option.none))
    (hns : ∀ s, p.value ≠ PyVal.str s)
    (hskip : ¬(p.defaultIsNone = true ∧ p.value = PyVal.none)) :
    ∀ (func : Unit → α),
      validate_checksum_address keccak V ps func
        = (V1, Except.error (Exc.typeError
            (p.value.typeName ++ " is an invalid type for parameter \"" ++ p.name ++ "\"."))) := by
  intro func
  have hrun : runParams keccak V (addressParams ps)
      = (V1, Option.some (Exc.typeError
          (p.value.typeName ++ " is an invalid type for parameter \"" ++ p.name ++ "\"."))) := by
    rw [haddr, runParams_append keccak V before (p :: after), hbefore]
    simp only [runParams, checkParam_nonstring keccak V1 p hns hskip]
  unfold validate_checksum_address
  rw [hrun]

/-- Witness for claim C7: an int bound to the account alias parameter. -/
theorem c7_non_string_address_fails_witness :
    validate_checksum_address (α := Nat) keccak0 []
        [⟨"account", PyVal.int 5, false⟩] (fun _ => 7)
      = ([], Except.error (Exc.typeError "int is an invalid type for parameter \"account\".")) :=
  c7_non_string_address_fails keccak0 [] []
    [⟨"account", PyVal.int 5, false⟩] [] [] ⟨"account", PyVal.int 5, false⟩
    rfl rfl (fun s h => PyVal.noConfusion h) (by decide) (fun _ => 7)

/-- Claim C8 (confirmed): if validating a string bound to an address
parameter succeeds once, over a verified cache evolved from the initial
empty one, then every later validation of the canonical (checksummed) form
of that string succeeds as a cache hit and leaves the cache unchanged. -/
theorem c8_revalidation_idempotent (keccak : List Char → Nat → Nat)
    (V V2 V3 : List String) (p : Param) (s : String) (name2 : String) (d2 : Bool)
    (hval : p.value = PyVal.str s)
    (hreach : ValEvolves keccak [] V)
    (hok : checkParam keccak V p = (V2, Option.none))
    (hlater : ValEvolves keccak V2 V3) :
    checkParam keccak V3 ⟨name2, PyVal.str (to_checksum_address keccak s), d2⟩
      = (V3, Option.none) := by
  have hVvalid : ∀ u ∈ V, is_checksum_address keccak u = true :=
    valEvolves_valid keccak [] V hreach (by intro u hu; cases hu)
  obtain ⟨hsvalid, hmem2⟩ := checkParam_str_ok keccak V V2 p s hval hVvalid hok
  have hfix : to_checksum_address keccak s = s := to_checksum_address_of_valid keccak s hsvalid
  have hmem3 : s ∈ V3 := valEvolves_subset keccak V2 V3 hlater hmem2
  have hc : V3.contains s = true := (contains_iff_mem V3 s).mpr hmem3
  rw [hfix]
  simp [checkParam, hc, hmem3]

/-- Witness for claim C8: the fixture address validated once from the empty
cache, then revalidated in canonical form. -/
theorem c8_revalidation_idempotent_witness :
    checkParam keccak0 [addr0] ⟨"address", PyVal.str (to_checksum_address keccak0 addr0), false⟩
      = ([addr0], Option.none) :=
  c8_revalidation_idempotent keccak0 [] [addr0] [addr0]
    ⟨"account", PyVal.str addr0, false⟩ addr0 "address" false rfl
    (ValEvolves.refl []) (by decide) (ValEvolves.refl [addr0])

/-- Claim C9 (confirmed): over well-formed keystore states lock_account
removes the cached signing capability when present, succeeds as a no-op for
a known never-unlocked address, fails with UnknownAccount for a non-member
address, and whenever it returns it returns true exactly when the address
is absent from the unlocked cache. -/
theorem c9_lock_account_contract (st : KeystoreSigner.KeystoreState) (account : String)
    (hwf : KeystoreSigner.WellFormed st) :
    ((alookup st.signers account).isSome = true →
        alookup (KeystoreSigner.lock_account st account).1.signers account = Option.none
          ∧ (KeystoreSigner.lock_account st account).2 = Except.ok true)
    ∧ (alookup st.signers account = Option.none →
        (alookup st.keys account).isSome = true →
        KeystoreSigner.lock_account st account = (st, Except.ok true))
    ∧ (alookup st.keys account = Option.none →
        KeystoreSigner.lock_account st account = (st, Except.error (Exc.unknownAccount account)))
    ∧ (∀ st2 b, KeystoreSigner.lock_account st account = (st2, Except.ok b) →
        (b = true ↔ alookup st2.signers account = Option.none)) := by
  have hpop1 : (popFirst st.signers account).1 = alookup st.signers account :=
    popFirst_fst st.signers account
  have hgone : alookup (popFirst st.signers account).2 account = Option.none :=
    alookup_popFirst_of_nodup st.signers account hwf.1
  refine ⟨?_, ?_, ?_, ?_⟩
  · intro hsome
    obtain ⟨v, hv⟩ := Option.isSome_iff_exists.mp hsome
    have h1 : (popFirst st.signers account).1 = Option.some v := by rw [hpop1, hv]
    simp only [KeystoreSigner.lock_account, h1]
    exact ⟨hgone, by rw [hgone]; rfl⟩
  · intro hnone hkeys
    have h1 : (popFirst st.signers account).1 = Option.none := by rw [hpop1, hnone]
    simp [KeystoreSigner.lock_account, h1, hkeys, hnone]
  · intro hknone
    have hsnone : alookup st.signers account = Option.none := by
      cases h : alookup st.signers account with
      | none => rfl
      | some v =>
        have hm := alookup_mem st.signers account v h
        have hk := hwf.2 (account, v) hm
        rw [hknone] at hk
        exact absurd hk (by simp)
    have h1 : (popFirst st.signers account).1 = Option.none := by rw [hpop1, hsnone]
    simp [KeystoreSigner.lock_account, h1, hknone]
  · intro st2 b heq
    cases hp : (popFirst st.signers account).1 with
    | some v =>
      simp only [KeystoreSigner.lock_account, hp] at heq
      injection heq with hfst hsnd
      injection hsnd with hsnd2
      constructor
      · intro _
        rw [← hfst]
        exact hgone
      · intro _
        rw [← hsnd2, hgone]
        rfl
    | none =>
      have hsn : alookup st.signers account = Option.none := by rw [← hpop1, hp]
      by_cases hk : (alookup st.keys account).isSome = true
      · simp only [KeystoreSigner.lock_account, hp, if_pos hk] at heq
        injection heq with hfst hsnd
        injection hsnd with hsnd2
        constructor
        · intro _
          rw [← hfst]
          exact hsn
        · intro _
          rw [← hsnd2, hsn]
          rfl
      · simp only [KeystoreSigner.lock_account, hp, if_neg hk] at heq
        injection heq with hfst hsnd
        exact absurd hsnd (by simp)
  
/-- Witness for claim C9: locking the unlocked fixture account removes its
entry and reports true. -/
theorem c9_lock_account_contract_witness :
    alookup (KeystoreSigner.lock_account stUnlocked addr0).1.signers addr0 = Option.none
    ∧ (KeystoreSigner.lock_account stUnlocked addr0).2 = Except.ok true :=
  (c9_lock_account_contract stUnlocked addr0 ⟨by decide, by decide⟩).1 (by decide)

/-- Claim C10 (confirmed): the clique content type belongs to the valid
content type set, so sign_message raises no ValueError listing the valid
set for it, yet for every transport, endpoint, account, message and
validator address the call fails with the bare NotImplementedError; the
result does not depend on the transport, so no IPC request is issued and
no signature is ever produced. -/
theorem c10_clique_content_type_not_implemented
    (transport : String → (String × String × ClefSigner.ClefData) → Except ClefSigner.IpcFailure PyVal)
    (ipc_path account : String) (message : List Nat) (validator_address : Option String) :
    ClefSigner.SIGN_DATA_FOR_CLIQUE ∈ ClefSigner.SIGN_DATA_CONTENT_TYPES
    ∧ ClefSigner.sign_message transport ipc_path account message
        (Option.some ClefSigner.SIGN_DATA_FOR_CLIQUE) validator_address
      = Except.error Exc.notImplementedError :=
  ⟨by decide, rfl⟩
